import Mathlib

/-!
Shallow embedding of the boot sequencer, connectivity event handler and
watchdog-supervised task loop of `src/main/app_main.cpp` (ESP32-S3
"Carnet de Santé pour Reptiles" firmware).

Modelling choices:
* Each external call the firmware makes is recorded as an `Action` in an
  execution trace, in the order the source performs them.
* Results of external calls that the control flow branches on are supplied
  by a `BootEnv` record (one field per externally decided outcome).
  Results the source discards are still fields of `BootEnv`, and the
  embedded functions visibly ignore them, exactly as the source does.
* `esp_restart()` does not return; in the embedding it truncates the trace
  (no later action is emitted) and marks the boot as not completed.
* The Wi-Fi event handler is embedded separately as a state-transition
  function over the two variables it touches (`wifi_connected` and the
  boot-waiter event-group bit), consuming one link event at a time.
-/

namespace ReptileApp

/-- Result code of `nvs_flash_init` as distinguished by `app_main`:
`ESP_OK`, the two corruption codes it tests for, or any other error. -/
inductive NvsResult
  | ok
  | noFreePages
  | newVersionFound
  | otherErr
deriving DecidableEq, Repr

/-- Link events consumed by `wifi_event_handler`: `WIFI_EVENT_STA_START`,
`WIFI_EVENT_STA_DISCONNECTED`, `IP_EVENT_STA_GOT_IP`. -/
inductive LinkEvent
  | started
  | disconnected
  | ipAcquired
deriving DecidableEq, Repr

/-- External calls performed by the firmware, in source order. -/
inductive Action
  | nvsFlashInit
  | nvsFlashErase
  | eventGroupCreate
  | lcdSetConfig
  | lcdInit
  | lcdSetBrightness
  | espRestart
  | sdMount
  | netifInit
  | eventLoopCreate
  | netifCreateSta
  | wifiDriverInit
  | registerWifiHandler
  | registerIpHandler
  | wifiSetMode
  | wifiSetConfig
  | wifiStart
  | waitConnectedBits (timeoutMs : Nat)
  | btControllerInit
  | btControllerEnable
  | bluedroidInit
  | bluedroidEnable
  | sntpSetMode
  | sntpSetServer
  | sntpInit
  | lvInit
  | tickTimerCreate
  | tickTimerStart (periodUs : Nat)
  | dispDrvRegister
  | createWidgets
  | createStatusTimer
  | createLvglTask
  | wdtInit (timeoutS : Nat)
  | wdtAdd
  | wdtReset
  | lvTickInc (ms : Nat)
  | lvTaskHandler
  | vTaskDelay (ms : Nat)
deriving DecidableEq, Repr

/-- Boot stages of the sequencer, in the fixed order of the spec's
`BootStage` enum. -/
inductive BootStage
  | configStore
  | display
  | storage
  | connectivity
  | pairing
  | timeSync
  | uiReady
deriving DecidableEq, Repr

/-- The two global state flags of `app_main.cpp`
(`static bool wifi_connected = false, bt_enabled = false;`). -/
structure AppState where
  wifi_connected : Bool
  bt_enabled : Bool
deriving DecidableEq, Repr

/-- Initial values of the global flags. -/
def initialAppState : AppState := ⟨false, false⟩

/-- Externally decided outcomes of one boot run. Fields whose result the
source discards (the second `nvs_flash_init`, the four Bluetooth calls)
are present but visibly unused by the embedded functions, exactly as the
source ignores those return values. -/
structure BootEnv where
  nvsFirst : NvsResult
  nvsSecond : NvsResult
  lcdInitOk : Bool
  sdMountOk : Bool
  gotIpWithinTimeout : Bool
  btControllerInitOk : Bool
  btControllerEnableOk : Bool
  btStackInitOk : Bool
  btStackEnableOk : Bool
deriving DecidableEq, Repr

/-- Result of one boot run: trace of external calls, final global flags,
the SD mount result the source logs, and whether `app_main` reached the
end of its initialization (false when `esp_restart` cut it short). -/
structure BootResult where
  trace : List Action
  state : AppState
  storageMounted : Bool
  completed : Bool
deriving DecidableEq, Repr

/-- The corruption test of `app_main`:
`ret == ESP_ERR_NVS_NO_FREE_PAGES || ret == ESP_ERR_NVS_NEW_VERSION_FOUND`. -/
def nvsCorrupt (r : NvsResult) : Bool :=
  r == NvsResult.noFreePages || r == NvsResult.newVersionFound

/-- NVS bring-up at the top of `app_main`: one `nvs_flash_init`; on a
corruption code, one `nvs_flash_erase` and one further `nvs_flash_init`
whose result the source discards. -/
def nvsBootActions (env : BootEnv) : List Action :=
  Action.nvsFlashInit ::
    (if nvsCorrupt env.nvsFirst then [Action.nvsFlashErase, Action.nvsFlashInit] else [])

/-- Embedding of `lvgl_driver_init`: configure the panel, call `lcd.init()`; on failure
log and `esp_restart()` (which does not return, so the returned Bool is
false and the caller emits nothing further); on success set brightness. -/
def lvgl_driver_init (lcdOk : Bool) : List Action × Bool :=
  if lcdOk then
    ([Action.lcdSetConfig, Action.lcdInit, Action.lcdSetBrightness], true)
  else
    ([Action.lcdSetConfig, Action.lcdInit, Action.espRestart], false)

/-- Embedding of `sdcard_init`: one mount attempt; both branches only log, so the
action trace is the same and the mount result is returned for the log. -/
def sdcard_init (mountOk : Bool) : List Action × Bool :=
  ([Action.sdMount], mountOk)

/-- Embedding of `wifi_init`: netif/event-loop/driver setup, handler registration,
mode and credentials, `esp_wifi_start`, then a blocking
`xEventGroupWaitBits` with a fixed 10000 ms timeout. If `IP_EVENT_STA_GOT_IP`
arrived within the window, `wifi_event_handler` has set `wifi_connected`;
on timeout the source only logs and returns. -/
def wifi_init (gotIp : Bool) (s : AppState) : List Action × AppState :=
  ([Action.netifInit, Action.eventLoopCreate, Action.netifCreateSta,
    Action.wifiDriverInit, Action.registerWifiHandler, Action.registerIpHandler,
    Action.wifiSetMode, Action.wifiSetConfig, Action.wifiStart,
    Action.waitConnectedBits 10000],
   if gotIp then { s with wifi_connected := true } else s)

/-- Embedding of `bt_init`: the four Bluetooth bring-up calls. The source discards all
four result codes (the parameters here are deliberately unused) and then
unconditionally executes `bt_enabled = true`. -/
def bt_init (ctrlInitOk ctrlEnableOk stackInitOk stackEnableOk : Bool)
    (s : AppState) : List Action × AppState :=
  ([Action.btControllerInit, Action.btControllerEnable,
    Action.bluedroidInit, Action.bluedroidEnable],
   { s with bt_enabled := true })

/-- Embedding of `ntp_init`: fire-and-forget SNTP start, no result consulted. -/
def ntp_init : List Action :=
  [Action.sntpSetMode, Action.sntpSetServer, Action.sntpInit]

/-- Embedding of `create_ui`: register the LVGL display driver, build the widget tree,
create the 1 s status-bar timer. -/
def create_ui : List Action :=
  [Action.dispDrvRegister, Action.createWidgets, Action.createStatusTimer]

/-- Embedding of `app_main`, the boot sequencer. Performs NVS bring-up, creates the
event group, then runs the stages in source order
(display, SD, Wi-Fi, BT, NTP, LVGL init, tick timer, UI, render task)
and finally arms the task watchdog (5 s) and subscribes the current task.
A display-init failure restarts the device, truncating the run. -/
def app_main (env : BootEnv) : BootResult :=
  let pre := nvsBootActions env ++ [Action.eventGroupCreate]
  let d := lvgl_driver_init env.lcdInitOk
  if d.2 then
    let sd := sdcard_init env.sdMountOk
    let w := wifi_init env.gotIpWithinTimeout initialAppState
    let b := bt_init env.btControllerInitOk env.btControllerEnableOk
      env.btStackInitOk env.btStackEnableOk w.2
    { trace := pre ++ d.1 ++ sd.1 ++ w.1 ++ b.1 ++ ntp_init ++
        [Action.lvInit, Action.tickTimerCreate, Action.tickTimerStart 16000] ++
        create_ui ++ [Action.createLvglTask, Action.wdtInit 5, Action.wdtAdd],
      state := b.2,
      storageMounted := sd.2,
      completed := true }
  else
    { trace := pre ++ d.1,
      state := initialAppState,
      storageMounted := false,
      completed := false }

/-- State touched by `wifi_event_handler`: the global `wifi_connected`
flag and the `WIFI_CONNECTED_BIT` of the event group (the signal the
boot-time waiter in `wifi_init` blocks on). -/
structure WifiLinkState where
  wifi_connected : Bool
  connectedBitSet : Bool
deriving DecidableEq, Repr

/-- Visible effects of one run of `wifi_event_handler`. -/
inductive WifiCall
  | connect
  | setConnectedBits
  | logRetry
  | logIpOk
deriving DecidableEq, Repr

/-- Embedding of `wifi_event_handler`, one link event at a time. The source branches
only on `event_id`, never on any current state:
`STA_START` → `esp_wifi_connect()`;
`STA_DISCONNECTED` → clear `wifi_connected`, `esp_wifi_connect()`, log;
`STA_GOT_IP` → set `wifi_connected`, set the event-group bit, log. -/
def wifi_event_handler (s : WifiLinkState) : LinkEvent → WifiLinkState × List WifiCall
  | LinkEvent.started => (s, [WifiCall.connect])
  | LinkEvent.disconnected =>
      ({ s with wifi_connected := false }, [WifiCall.connect, WifiCall.logRetry])
  | LinkEvent.ipAcquired =>
      ({ wifi_connected := true, connectedBitSet := true },
       [WifiCall.setConnectedBits, WifiCall.logIpOk])

/-- Fold of `wifi_event_handler` over a sequence of link events
(events are delivered and processed one at a time). -/
def runHandler (s : WifiLinkState) : List LinkEvent → WifiLinkState × List WifiCall
  | [] => (s, [])
  | e :: es =>
      let r := wifi_event_handler s e
      let r' := runHandler r.1 es
      (r'.1, r.2 ++ r'.2)

/-- One iteration of `lvgl_task` (the render task): process pending UI
work, then delay one 16 ms period. It never touches the watchdog. -/
def lvgl_task_iter : List Action :=
  [Action.lvTaskHandler, Action.vTaskDelay 16]

/-- Trace of `n` iterations of the render task. -/
def lvgl_task_run : Nat → List Action
  | 0 => []
  | n + 1 => lvgl_task_iter ++ lvgl_task_run n

/-- One iteration of the supervisory loop at the bottom of `app_main`:
delay 1000 ms, then `esp_task_wdt_reset()`. -/
def main_loop_iter : List Action :=
  [Action.vTaskDelay 1000, Action.wdtReset]

/-- Trace of `n` iterations of the supervisory loop. -/
def main_loop_run : Nat → List Action
  | 0 => []
  | n + 1 => main_loop_iter ++ main_loop_run n

/-- Trace of `m` firings of the `lv_tick_handler` periodic tick-injection timer;
it only calls `lv_tick_inc(16)` and never touches the watchdog. -/
def lv_tick_run (m : Nat) : List Action :=
  List.replicate m (Action.lvTickInc 16)

/-- An interleaving of two task traces into one global execution order
(the scheduler may alternate the two tasks arbitrarily). -/
inductive Interleave : List Action → List Action → List Action → Prop
  | nil : Interleave [] [] []
  | left {a l r t} : Interleave l r t → Interleave (a :: l) r (a :: t)
  | right {a l r t} : Interleave l r t → Interleave l (a :: r) (a :: t)

/-- Modelled from the spec (§3 WatchdogTimer, §4.3): the watchdog, armed
at time 0 with a `timeout`, has expired by time `t` iff the arming
instant is at least `timeout` old and every reset signal it received is
either stale (older than `timeout` at `t`) or has not yet happened. -/
def wdtExpired (resets : List Nat) (timeout t : Nat) : Prop :=
  timeout ≤ t ∧ ∀ r ∈ resets, r + timeout ≤ t ∨ t < r

instance (resets : List Nat) (timeout t : Nat) :
    Decidable (wdtExpired resets timeout t) := by
  unfold wdtExpired; infer_instance

/-- Reset-signal times of a supervisory loop that completes exactly `n`
iterations and then stalls: iteration `i` delays 1000 ms and then resets
the watchdog, so its reset lands at `(i+1) * 1000` ms after boot. -/
def resetTimes (n : Nat) : List Nat :=
  (List.range n).map (fun i => (i + 1) * 1000)

/-- Boot stage that an external call belongs to (`none` for calls that
are not part of a numbered stage: event-group creation, restart,
watchdog arming/feeding, task-internal calls). -/
def stageOf : Action → Option BootStage
  | Action.nvsFlashInit => some BootStage.configStore
  | Action.nvsFlashErase => some BootStage.configStore
  | Action.lcdSetConfig => some BootStage.display
  | Action.lcdInit => some BootStage.display
  | Action.lcdSetBrightness => some BootStage.display
  | Action.sdMount => some BootStage.storage
  | Action.netifInit => some BootStage.connectivity
  | Action.eventLoopCreate => some BootStage.connectivity
  | Action.netifCreateSta => some BootStage.connectivity
  | Action.wifiDriverInit => some BootStage.connectivity
  | Action.registerWifiHandler => some BootStage.connectivity
  | Action.registerIpHandler => some BootStage.connectivity
  | Action.wifiSetMode => some BootStage.connectivity
  | Action.wifiSetConfig => some BootStage.connectivity
  | Action.wifiStart => some BootStage.connectivity
  | Action.waitConnectedBits _ => some BootStage.connectivity
  | Action.btControllerInit => some BootStage.pairing
  | Action.btControllerEnable => some BootStage.pairing
  | Action.bluedroidInit => some BootStage.pairing
  | Action.bluedroidEnable => some BootStage.pairing
  | Action.sntpSetMode => some BootStage.timeSync
  | Action.sntpSetServer => some BootStage.timeSync
  | Action.sntpInit => some BootStage.timeSync
  | Action.lvInit => some BootStage.uiReady
  | Action.tickTimerCreate => some BootStage.uiReady
  | Action.tickTimerStart _ => some BootStage.uiReady
  | Action.dispDrvRegister => some BootStage.uiReady
  | Action.createWidgets => some BootStage.uiReady
  | Action.createStatusTimer => some BootStage.uiReady
  | Action.createLvglTask => some BootStage.uiReady
  | _ => none

/-- Position of a stage in the fixed boot order. -/
def stageIdx : BootStage → Nat
  | BootStage.configStore => 0
  | BootStage.display => 1
  | BootStage.storage => 2
  | BootStage.connectivity => 3
  | BootStage.pairing => 4
  | BootStage.timeSync => 5
  | BootStage.uiReady => 6

/-- The sequence of stage memberships of a boot trace. -/
def stageSeq (env : BootEnv) : List BootStage :=
  (app_main env).trace.filterMap stageOf

/-- Keep the first occurrence of each stage, in order of first
appearance. -/
def dedupKeepFirstAux : List BootStage → List BootStage → List BootStage
  | _, [] => []
  | seen, a :: l =>
      if a ∈ seen then dedupKeepFirstAux seen l
      else a :: dedupKeepFirstAux (a :: seen) l

/-- Stages attempted by a boot run, each listed once at its first
attempt. -/
def stagesAttempted (env : BootEnv) : List BootStage :=
  dedupKeepFirstAux [] (stageSeq env)

/-- Is a stage sequence monotone in the fixed boot order (no call of an
earlier stage after a later stage has started)? -/
def stageMonotone : List BootStage → Bool
  | [] => true
  | [_] => true
  | a :: b :: l => Nat.ble (stageIdx a) (stageIdx b) && stageMonotone (b :: l)

/-- The action performed immediately after the first occurrence of `a`
in a trace. -/
def nextAfterFirst (a : Action) : List Action → Option Action
  | [] => none
  | b :: l => if b = a then l.head? else nextAfterFirst a l

/-- Calls that reach the UI engine: LVGL initialization, tick injection,
UI work processing, driver registration, widget/timer creation, and the
creation of the render task that drives them. -/
def uiCall : Action → Bool
  | Action.lvInit => true
  | Action.tickTimerCreate => true
  | Action.tickTimerStart _ => true
  | Action.dispDrvRegister => true
  | Action.createWidgets => true
  | Action.createStatusTimer => true
  | Action.createLvglTask => true
  | Action.lvTickInc _ => true
  | Action.lvTaskHandler => true
  | _ => false

/-- Does a call block on the boot-waiter event group? -/
def isWaitCall : Action → Bool
  | Action.waitConnectedBits _ => true
  | _ => false

/-- The boot trace as a single literal function of the two outcomes the
control flow of `app_main` actually branches on: the first NVS result and
the display-init result. Proven equal to `(app_main env).trace` below. -/
def bootTrace (first : NvsResult) (lcdOk : Bool) : List Action :=
  Action.nvsFlashInit ::
    ((if nvsCorrupt first then [Action.nvsFlashErase, Action.nvsFlashInit] else []) ++
      (Action.eventGroupCreate ::
        (if lcdOk then
          [Action.lcdSetConfig, Action.lcdInit, Action.lcdSetBrightness,
           Action.sdMount,
           Action.netifInit, Action.eventLoopCreate, Action.netifCreateSta,
           Action.wifiDriverInit, Action.registerWifiHandler, Action.registerIpHandler,
           Action.wifiSetMode, Action.wifiSetConfig, Action.wifiStart,
           Action.waitConnectedBits 10000,
           Action.btControllerInit, Action.btControllerEnable,
           Action.bluedroidInit, Action.bluedroidEnable,
           Action.sntpSetMode, Action.sntpSetServer, Action.sntpInit,
           Action.lvInit, Action.tickTimerCreate, Action.tickTimerStart 16000,
           Action.dispDrvRegister, Action.createWidgets, Action.createStatusTimer,
           Action.createLvglTask, Action.wdtInit 5, Action.wdtAdd]
         else
          [Action.lcdSetConfig, Action.lcdInit, Action.espRestart])))

/-- The boot trace of `app_main` depends only on the first NVS result and
the display-init outcome; all other environment fields are discarded by
the source before they could influence the sequence of calls. -/
theorem app_main_trace (env : BootEnv) :
    (app_main env).trace = bootTrace env.nvsFirst env.lcdInitOk := by
  rcases env with ⟨f, _, l, _, _, _, _, _, _⟩
  cases f <;> cases l <;> rfl

/-- After a completed boot, the global flags are: `wifi_connected` iff an
IP was acquired within the boot-time wait, and `bt_enabled` always true;
a display-aborted boot leaves both flags at their initial values. -/
theorem app_main_state_eq (env : BootEnv) :
    (app_main env).state =
      cond env.lcdInitOk
        { wifi_connected := env.gotIpWithinTimeout, bt_enabled := true }
        initialAppState := by
  rcases env with ⟨_, _, l, _, ip, _, _, _, _⟩
  cases l <;> cases ip <;> rfl

/-- Boot reaches its end exactly when the display init succeeded. -/
theorem app_main_completed (env : BootEnv) :
    (app_main env).completed = env.lcdInitOk := by
  rcases env with ⟨_, _, l, _, _, _, _, _, _⟩
  cases l <;> rfl

/-- The recorded mount result is the storage outcome of the environment
(false when boot aborted before the storage stage). -/
theorem app_main_mounted (env : BootEnv) :
    (app_main env).storageMounted = (env.lcdInitOk && env.sdMountOk) := by
  rcases env with ⟨_, _, l, sd, _, _, _, _, _⟩
  cases l <;> cases sd <;> rfl

/-- State reached by folding `wifi_event_handler` over `n` consecutive
`Disconnected` events: the connected flag is cleared by the first event
and stays cleared. -/
theorem runHandler_disconnected_state (s : WifiLinkState) (n : Nat) :
    (runHandler s (List.replicate n LinkEvent.disconnected)).1 =
      if n = 0 then s else { s with wifi_connected := false } := by
  induction n generalizing s with
  | zero => rfl
  | succ k ih =>
    simp only [List.replicate_succ, runHandler, wifi_event_handler, ih]
    cases k <;> simp

/-- Each `Disconnected` event contributes exactly one `connect()` call. -/
theorem runHandler_disconnected_count (s : WifiLinkState) (n : Nat) :
    (runHandler s (List.replicate n LinkEvent.disconnected)).2.count WifiCall.connect = n := by
  induction n generalizing s with
  | zero => rfl
  | succ k ih =>
    simp [List.replicate_succ, runHandler, wifi_event_handler, ih, List.count_cons]

/-- Counting over an interleaving splits into the two task traces. -/
theorem count_interleave (x : Action) {l r t : List Action}
    (h : Interleave l r t) : t.count x = l.count x + r.count x := by
  induction h with
  | nil => rfl
  | left _ ih => simp only [List.count_cons, ih]; omega
  | right _ ih => simp only [List.count_cons, ih]; omega

/-- The supervisory loop resets the watchdog exactly once per iteration. -/
theorem main_loop_run_count (n : Nat) :
    (main_loop_run n).count Action.wdtReset = n := by
  induction n with
  | zero => rfl
  | succ k ih =>
    simp [main_loop_run, main_loop_iter, List.count_append, List.count_cons, ih]

/-- The render task never resets the watchdog. -/
theorem lvgl_task_run_count (m : Nat) :
    (lvgl_task_run m).count Action.wdtReset = 0 := by
  induction m with
  | zero => rfl
  | succ k ih =>
    simp [lvgl_task_run, lvgl_task_iter, List.count_append, List.count_cons, ih]

/-- The tick-injection timer never resets the watchdog. -/
theorem lv_tick_run_count (m : Nat) :
    (lv_tick_run m).count Action.wdtReset = 0 := by
  simp [lv_tick_run, List.count_replicate]

/-- While the supervisory loop is still iterating (time within its `n`
completed 1000 ms periods), the watchdog never expires: some reset is
always younger than the 5000 ms timeout. -/
theorem wdt_fed_no_expiry (n u : Nat) (hu : u ≤ n * 1000) :
    ¬ wdtExpired (resetTimes n) 5000 u := by
  rintro ⟨h5, hall⟩
  have hdm : 1000 * (u / 1000) + u % 1000 = u := Nat.div_add_mod u 1000
  have hm : u % 1000 < 1000 := Nat.mod_lt _ (by omega)
  have hkn : u / 1000 ≤ n := by
    have h1 : u / 1000 ≤ n * 1000 / 1000 := Nat.div_le_div_right hu
    simpa [Nat.mul_div_cancel] using h1
  have hk1 : 1 ≤ u / 1000 := by omega
  have hr : (u / 1000 - 1 + 1) * 1000 ∈ resetTimes n := by
    simp only [resetTimes, List.mem_map, List.mem_range]
    exact ⟨u / 1000 - 1, by omega, rfl⟩
  have hd := hall _ hr
  omega

/-- If the supervisory loop stalls after `n` completed periods (whether
it hangs itself or is starved by the render task), no further reset
arrives, and the watchdog expires exactly one timeout window later. -/
theorem wdt_expires_after_stall (n : Nat) :
    wdtExpired (resetTimes n) 5000 (n * 1000 + 5000) := by
  refine ⟨by omega, ?_⟩
  intro r hr
  left
  simp only [resetTimes, List.mem_map, List.mem_range] at hr
  obtain ⟨i, hi, rfl⟩ := hr
  omega

/-- Claim C1, counterexample: with the first `nvs_flash_init` reporting
`NoFreePages` and the reinitialization failing, boot does NOT abort: the
erase cycle runs once, but the result of the second initialization is
discarded and `app_main` proceeds through the display stage and the rest
of boot, contradicting "a failure of that second initialization is fatal:
boot aborts and no further boot stage runs". -/
theorem C1_second_init_failure_not_fatal :
    (app_main ⟨NvsResult.noFreePages, NvsResult.otherErr, true, true, true,
        true, true, true, true⟩).trace.count Action.nvsFlashErase = 1 ∧
    Action.lcdInit ∈ (app_main ⟨NvsResult.noFreePages, NvsResult.otherErr, true, true, true,
        true, true, true, true⟩).trace ∧
    (app_main ⟨NvsResult.noFreePages, NvsResult.otherErr, true, true, true,
        true, true, true, true⟩).completed = true := by decide

/-- Claim C1, amended: a corruption signal (no-free-pages or
version-mismatch) on the first init triggers exactly one erase and
exactly one reinitialization (so an infinite erase loop never occurs),
and boot continues into the display stage unconditionally: the result of
the second initialization is ignored, so its failure is not fatal. -/
theorem C1_nvs_single_erase_cycle (env : BootEnv) :
    (app_main env).trace.count Action.nvsFlashErase =
      cond (nvsCorrupt env.nvsFirst) 1 0 ∧
    (app_main env).trace.count Action.nvsFlashInit =
      cond (nvsCorrupt env.nvsFirst) 2 1 ∧
    Action.lcdInit ∈ (app_main env).trace := by
  rcases env with ⟨f, _, l, _, _, _, _, _, _⟩
  simp only [app_main_trace]
  cases f <;> cases l <;> decide

/-- Claim C2: the UIReady stage (widget creation and render-task start)
is reached iff the display init succeeded; on display-init failure,
exactly one device reset is requested and the UI engine receives zero
calls (no LVGL init, no tick source, no flush registration, no widget
creation, no render task) from that point on. -/
theorem C2_uiready_iff_display (env : BootEnv) :
    (BootStage.uiReady ∈ stagesAttempted env ↔ env.lcdInitOk = true) ∧
    (app_main env).trace.count Action.espRestart = cond env.lcdInitOk 0 1 ∧
    (env.lcdInitOk = false → (app_main env).trace.countP uiCall = 0) := by
  rcases env with ⟨f, _, l, _, _, _, _, _, _⟩
  simp only [stagesAttempted, stageSeq, app_main_trace]
  cases f <;> cases l <;> decide

/-- Witness for C2 at a concrete display-failure environment. -/
theorem C2_uiready_iff_display_witness :
    (app_main ⟨NvsResult.ok, NvsResult.ok, false, true, true,
        true, true, true, true⟩).trace.countP uiCall = 0 :=
  (C2_uiready_iff_display ⟨NvsResult.ok, NvsResult.ok, false, true, true,
    true, true, true, true⟩).2.2 rfl

/-- Claim C3, counterexample: in the initial Disconnected state (connected
flag clear, boot-waiter bit clear, no connect attempt made yet), an
`IPAcquired` event is NOT a no-op: the handler sets the connected flag,
sets the boot-waiter bit and emits the signalling call, because the
source branches only on the event id and never guards on state. -/
theorem C3_ipAcquired_not_noop_when_disconnected :
    (wifi_event_handler ⟨false, false⟩ LinkEvent.ipAcquired).1 ≠ ⟨false, false⟩ ∧
    (wifi_event_handler ⟨false, false⟩ LinkEvent.ipAcquired).1.wifi_connected = true ∧
    (wifi_event_handler ⟨false, false⟩ LinkEvent.ipAcquired).1.connectedBitSet = true ∧
    (wifi_event_handler ⟨false, false⟩ LinkEvent.ipAcquired).2 ≠ [] := by decide

/-- Claim C3, amended: the `IPAcquired` branch of the handler is
unguarded: from every state — including the Disconnected one — it sets
the connected flag, sets the boot-waiter bit and emits the signal call,
so the transition to Connected fires from any state, not only from
Connecting. -/
theorem C3_ipAcquired_unguarded (s : WifiLinkState) :
    wifi_event_handler s LinkEvent.ipAcquired =
      ({ wifi_connected := true, connectedBitSet := true },
       [WifiCall.setConnectedBits, WifiCall.logIpOk]) := rfl

/-- Claim C4: for every sequence of `Disconnected` link events from any
state, the handler issues exactly one `connect()` call per event, clears
the connected flag with the first event and keeps it clear (the
Connecting state), and each single step is the immediate unconditional
reconnect `({s with wifi_connected := false}, [connect, logRetry])` —
no backoff action and no retry cap appear anywhere. -/
theorem C4_disconnected_one_connect_per_event (s : WifiLinkState) (n : Nat) :
    (runHandler s (List.replicate n LinkEvent.disconnected)).2.count WifiCall.connect = n ∧
    (runHandler s (List.replicate n LinkEvent.disconnected)).1 =
      (if n = 0 then s else { s with wifi_connected := false }) ∧
    wifi_event_handler s LinkEvent.disconnected =
      ({ s with wifi_connected := false }, [WifiCall.connect, WifiCall.logRetry]) :=
  ⟨runHandler_disconnected_count s n, runHandler_disconnected_state s n, rfl⟩

/-- Claim C5, counterexample: with both Bluetooth enable calls failing
(controller enable and stack enable), `bt_enabled` — the pairing
readiness flag — is still true after boot, contradicting "the flag is
true only when the enable succeeded": the source discards the result
codes and sets the flag unconditionally. -/
theorem C5_pairing_flag_true_despite_failure :
    (app_main ⟨NvsResult.ok, NvsResult.ok, true, true, true,
        true, false, true, false⟩).state.bt_enabled = true := by decide

/-- Claim C5, amended: a failure of the pairing enable stage is indeed
non-fatal (boot proceeds into the TimeSync stage), but the pairing
readiness flag is set true unconditionally after the four enable calls,
regardless of their results — it is not left false on failure. -/
theorem C5_pairing_nonfatal_flag_unconditional (env : BootEnv)
    (h : env.lcdInitOk = true) :
    (app_main env).state.bt_enabled = true ∧
    Action.sntpInit ∈ (app_main env).trace := by
  rcases env with ⟨f, _, l, _, ip, _, _, _, _⟩
  cases l
  · exact Bool.noConfusion h
  · simp only [app_main_state_eq, app_main_trace]
    cases f <;> cases ip <;> decide

/-- Witness for C5 at a concrete environment with failing enables. -/
theorem C5_pairing_nonfatal_flag_unconditional_witness :
    (app_main ⟨NvsResult.ok, NvsResult.ok, true, true, true,
        false, false, false, false⟩).state.bt_enabled = true :=
  (C5_pairing_nonfatal_flag_unconditional ⟨NvsResult.ok, NvsResult.ok, true, true, true,
    false, false, false, false⟩ rfl).1

/-- Claim C6: the boot sequencer attempts the stages in the fixed order
ConfigStore, Display, Storage, Connectivity, Pairing, TimeSync (then
UIReady) when the display init succeeds, and stops at Display otherwise;
the stage sequence of the trace is monotone (no stage is revisited once a
later stage has started), and a device restart is requested exactly when
the display init fails — no other stage ever requests one. -/
theorem C6_stage_order_fixed (env : BootEnv) :
    stagesAttempted env =
      cond env.lcdInitOk
        [BootStage.configStore, BootStage.display, BootStage.storage,
         BootStage.connectivity, BootStage.pairing, BootStage.timeSync,
         BootStage.uiReady]
        [BootStage.configStore, BootStage.display] ∧
    stageMonotone (stageSeq env) = true ∧
    (app_main env).trace.count Action.espRestart = cond env.lcdInitOk 0 1 := by
  rcases env with ⟨f, _, l, _, _, _, _, _, _⟩
  simp only [stagesAttempted, stageSeq, app_main_trace]
  cases f <;> cases l <;> decide

/-- Claim C7: the boot-time connectivity stage performs exactly one
bounded wait, with the fixed 10000 ms timeout (no other wait call exists
in the trace); when no IP was acquired within the window, the connected
flag is still false after boot, yet the Pairing stage is still invoked
(boot proceeds, never hangs); and the handler keeps retrying in the
background: every further `Disconnected` event triggers an immediate
reconnect. -/
theorem C7_connectivity_bounded_wait (env : BootEnv) (h : env.lcdInitOk = true) :
    (app_main env).trace.countP isWaitCall = 1 ∧
    (app_main env).trace.count (Action.waitConnectedBits 10000) = 1 ∧
    (env.gotIpWithinTimeout = false → (app_main env).state.wifi_connected = false) ∧
    Action.btControllerInit ∈ (app_main env).trace ∧
    (∀ s, (wifi_event_handler s LinkEvent.disconnected).2.count WifiCall.connect = 1) := by
  rcases env with ⟨f, _, l, _, ip, _, _, _, _⟩
  cases l
  · exact Bool.noConfusion h
  · simp only [app_main_trace, app_main_state_eq]
    cases f <;> cases ip <;>
      exact ⟨by decide, by decide, by decide, by decide, fun s => rfl⟩

/-- Witness for C7 at a concrete environment whose boot-time wait times
out. -/
theorem C7_connectivity_bounded_wait_witness :
    (app_main ⟨NvsResult.ok, NvsResult.ok, true, true, false,
        true, true, true, true⟩).trace.count (Action.waitConnectedBits 10000) = 1 :=
  (C7_connectivity_bounded_wait ⟨NvsResult.ok, NvsResult.ok, true, true, false,
    true, true, true, true⟩ rfl).2.1

/-- Claim C8: storage is attempted exactly once (no retry), its mount
result is recorded as-is (false on failure), the call performed
immediately after the single mount attempt is the first call of the
Connectivity stage, and no device reset or abort is ever requested on a
mounted-or-not storage outcome. -/
theorem C8_storage_failure_nonblocking (env : BootEnv) (h : env.lcdInitOk = true) :
    (app_main env).trace.count Action.sdMount = 1 ∧
    (app_main env).storageMounted = env.sdMountOk ∧
    nextAfterFirst Action.sdMount (app_main env).trace = some Action.netifInit ∧
    stageOf Action.netifInit = some BootStage.connectivity ∧
    (app_main env).trace.count Action.espRestart = 0 := by
  rcases env with ⟨f, _, l, sd, ip, _, _, _, _⟩
  cases l
  · exact Bool.noConfusion h
  · simp only [app_main_trace, app_main_mounted]
    cases f <;> cases sd <;> decide

/-- Witness for C8 at a concrete environment whose mount fails. -/
theorem C8_storage_failure_nonblocking_witness :
    nextAfterFirst Action.sdMount
      (app_main ⟨NvsResult.ok, NvsResult.ok, true, false, true,
        true, true, true, true⟩).trace = some Action.netifInit :=
  (C8_storage_failure_nonblocking ⟨NvsResult.ok, NvsResult.ok, true, false, true,
    true, true, true, true⟩ rfl).2.2.1

/-- Claim C9: in every post-boot execution (any interleaving of the
supervisory loop and the render task), the watchdog reset signal comes
only from the supervisory loop — exactly one per one-second iteration —
and never from the render task or the tick timer; consequently, while
the supervisory loop is iterating the watchdog never expires, and if it
stalls after `n` periods (whether hung itself or starved by the
higher-priority render task) the watchdog expires exactly one 5000 ms
timeout window later. -/
theorem C9_wdt_reset_supervisor_only (n m : Nat) (t : List Action)
    (h : Interleave (main_loop_run n) (lvgl_task_run m) t) :
    t.count Action.wdtReset = n ∧
    (lvgl_task_run m).count Action.wdtReset = 0 ∧
    (lv_tick_run m).count Action.wdtReset = 0 ∧
    (∀ u, u ≤ n * 1000 → ¬ wdtExpired (resetTimes n) 5000 u) ∧
    wdtExpired (resetTimes n) 5000 (n * 1000 + 5000) := by
  refine ⟨?_, lvgl_task_run_count m, lv_tick_run_count m,
    fun u hu => wdt_fed_no_expiry n u hu, wdt_expires_after_stall n⟩
  rw [count_interleave Action.wdtReset h, main_loop_run_count, lvgl_task_run_count]
  omega

/-- Witness for C9 on the concrete execution consisting of one
supervisory iteration and no render iterations. -/
theorem C9_wdt_reset_supervisor_only_witness :
    (main_loop_run 1).count Action.wdtReset = 1 :=
  (C9_wdt_reset_supervisor_only 1 0 (main_loop_run 1)
    (Interleave.left (Interleave.left Interleave.nil))).1

/-- Claim C10: the watchdog exists only from the very end of a completed
boot: the arming and task-subscription calls are exactly the final two
actions of the boot trace, no watchdog call (arm, subscribe or reset)
occurs anywhere before them — in particular the whole stage sequence,
including the bounded 10 s connectivity wait, and the render-task
creation all precede the arming — and no watchdog is armed at all when
boot is cut short by a display failure. -/
theorem C10_wdt_armed_after_boot (env : BootEnv) :
    (Action.wdtInit 5 ∈ (app_main env).trace ↔ env.lcdInitOk = true) ∧
    (env.lcdInitOk = true →
      (app_main env).trace.drop ((app_main env).trace.length - 2) =
        [Action.wdtInit 5, Action.wdtAdd] ∧
      (((app_main env).trace.take ((app_main env).trace.length - 2)).filterMap stageOf =
        stageSeq env) ∧
      (∀ a ∈ (app_main env).trace.take ((app_main env).trace.length - 2),
        a ≠ Action.wdtInit 5 ∧ a ≠ Action.wdtAdd ∧ a ≠ Action.wdtReset) ∧
      Action.createLvglTask ∈ (app_main env).trace.take ((app_main env).trace.length - 2) ∧
      Action.waitConnectedBits 10000 ∈
        (app_main env).trace.take ((app_main env).trace.length - 2)) := by
  rcases env with ⟨f, _, l, _, _, _, _, _, _⟩
  simp only [app_main_trace, stageSeq]
  cases f <;> cases l <;> decide

/-- Witness for C10 at a concrete fully successful environment. -/
theorem C10_wdt_armed_after_boot_witness :
    (app_main ⟨NvsResult.ok, NvsResult.ok, true, true, true,
        true, true, true, true⟩).trace.drop
      ((app_main ⟨NvsResult.ok, NvsResult.ok, true, true, true,
        true, true, true, true⟩).trace.length - 2) =
      [Action.wdtInit 5, Action.wdtAdd] :=
  ((C10_wdt_armed_after_boot ⟨NvsResult.ok, NvsResult.ok, true, true, true,
    true, true, true, true⟩).2 rfl).1

end ReptileApp
